import Mathlib

/- Shallow embedding of ZhiShouHu's anomaly-detection and baseline-learning
engine:
  src/backend/app/services/anomaly_detector.py
  src/backend/app/api/baseline.py
  src/backend/app/services/llm_service.py
  src/backend/app/models.py (the table rows the engine reads)
Python ints are modelled as ℤ (ℕ for hours and counts), Python floats as ℚ
(ℝ for the trigonometric geofence code).  Database lookups performed through
the session (user settings, AI health profile, safe zones, the historical
record window) are passed in as explicit optional values: the analyzers read
them through _get_user_settings / _get_health_profile / _get_safe_zones and
never write.  Where the source formats a number into a message string with
an f-string (e.g. "{hr_high:.0f}"), the embedding uses toString; only the
non-emptiness and the branch selection of messages matter downstream. -/

namespace ZhiShouHu

/-- Default thresholds, anomaly_detector.py lines 13-18. -/
def HEART_RATE_HIGH : ℚ := 100

/-- Default heart-rate lower threshold (anomaly_detector.py line 15). -/
def HEART_RATE_LOW : ℚ := 50

/-- Default systolic upper threshold (anomaly_detector.py line 16). -/
def BP_SYSTOLIC_HIGH : ℤ := 140

/-- Default systolic lower threshold (anomaly_detector.py line 17). -/
def BP_SYSTOLIC_LOW : ℤ := 90

/-- Default diastolic upper threshold (anomaly_detector.py line 18). -/
def BP_DIASTOLIC_HIGH : ℤ := 90

/-- The fields of models.UserSettings the detection engine reads
(models.py lines 56-67; the table has no diastolic threshold column). -/
structure UserSettings where
  heart_rate_threshold_high : ℤ
  heart_rate_threshold_low : ℤ
  systolic_bp_threshold_high : ℤ
  systolic_bp_threshold_low : ℤ
deriving DecidableEq

/-- The fields of models.HealthProfile that analyze_heart_rate reads
(models.py lines 106-150; the remaining columns do not influence the
analyzed functions). -/
structure HealthProfile where
  learned_hr_low : ℚ
  learned_hr_high : ℚ
  learned_hr_mean : ℚ
  confidence_score : ℚ
deriving DecidableEq

/-- One health record as the analyzers consume it (models.py lines 69-79);
latitude/longitude enter the analysis only through the geofence membership
test, which is abstracted to its Boolean outcome (see analyze_location),
and `hour` is record.timestamp.hour. -/
structure HealthRecord where
  heart_rate : ℤ
  systolic_bp : ℤ
  diastolic_bp : ℤ
  steps : ℤ
  hour : ℕ
deriving DecidableEq

/-- severity_scores dict lookup with default 0
(anomaly_detector.py line 316 and the .get(_, 0) calls on 318-321). -/
def severity_scores (s : String) : ℕ :=
  match s with
  | "normal" => 0
  | "low" => 1
  | "medium" => 2
  | "warning" => 3
  | "high" => 4
  | _ => 0

/-- Python round(x, 1), modelled as round-half-up to one decimal (CPython
rounds half to even; the difference affects none of the verified claims). -/
def roundTo1 (x : ℚ) : ℚ := ((round (10 * x) : ℤ) : ℚ) / 10

/-- The threshold resolution at the top of analyze_heart_rate
(anomaly_detector.py lines 129-148): (hr_high, hr_low, using_ai_baseline).
A truthy user_id with a stored profile of confidence_score > 0.3 selects the
learned bounds; otherwise stored manual settings; otherwise the defaults.
A falsy user_id is modelled by passing none for both lookups.  The local
hr_baseline_mean (lines 132, 141) is assigned but never read afterwards and
is omitted. -/
def resolve_hr_thresholds (profile : Option HealthProfile)
    (settings : Option UserSettings) : ℚ × ℚ × Bool :=
  match profile with
  | some p =>
    if p.confidence_score > 0.3 then
      (p.learned_hr_high, p.learned_hr_low, true)
    else
      match settings with
      | some s => ((s.heart_rate_threshold_high : ℚ), (s.heart_rate_threshold_low : ℚ), false)
      | none => (HEART_RATE_HIGH, HEART_RATE_LOW, false)
  | none =>
    match settings with
    | some s => ((s.heart_rate_threshold_high : ℚ), (s.heart_rate_threshold_low : ℚ), false)
    | none => (HEART_RATE_HIGH, HEART_RATE_LOW, false)

/-- The per-dimension result dict of analyze_heart_rate
(anomaly_detector.py lines 150-156); baseline_range keeps the
(hr_low, hr_high) pair the source formats into a string. -/
structure HrResult where
  is_anomaly : Bool
  severity : String
  message : String
  using_ai_baseline : Bool
  baseline_range : ℚ × ℚ
  deviation_percent : Option ℚ
deriving DecidableEq

/-- AnomalyDetector.analyze_heart_rate (anomaly_detector.py lines 127-177). -/
def analyze_heart_rate (heart_rate : ℤ) (profile : Option HealthProfile)
    (settings : Option UserSettings) : HrResult :=
  let r := resolve_hr_thresholds profile settings
  let hr_high := r.1
  let hr_low := r.2.1
  let using_ai_baseline := r.2.2
  if (heart_rate : ℚ) > hr_high then
    let deviation := ((heart_rate : ℚ) - hr_high) / hr_high * 100
    { is_anomaly := true
      severity := if deviation > 20 then "high" else "warning"
      message := if using_ai_baseline then
          "心率" ++ toString heart_rate ++ "bpm，超出个人基线上限(" ++ toString hr_high ++ "bpm)"
        else
          "心率偏高 (" ++ toString heart_rate ++ "bpm)，建议关注是否为运动或情绪波动"
      using_ai_baseline := using_ai_baseline
      baseline_range := (hr_low, hr_high)
      deviation_percent := some (roundTo1 deviation) }
  else if (heart_rate : ℚ) < hr_low then
    let deviation := (hr_low - (heart_rate : ℚ)) / hr_low * 100
    { is_anomaly := true
      severity := "medium"
      message := if using_ai_baseline then
          "心率" ++ toString heart_rate ++ "bpm，低于个人基线下限(" ++ toString hr_low ++ "bpm)"
        else
          "心率偏低 (" ++ toString heart_rate ++ "bpm)，若非睡眠时段请关注"
      using_ai_baseline := using_ai_baseline
      baseline_range := (hr_low, hr_high)
      deviation_percent := some (roundTo1 deviation) }
  else
    { is_anomaly := false
      severity := "normal"
      message := "心率正常"
      using_ai_baseline := using_ai_baseline
      baseline_range := (hr_low, hr_high)
      deviation_percent := none }

/-- The systolic-high threshold as resolved by analyze_blood_pressure
(anomaly_detector.py lines 182, 186-189): settings when stored, else the
default; neither the profile nor anything else is consulted. -/
def resolve_bp_sys_high (settings : Option UserSettings) : ℤ :=
  match settings with
  | some s => s.systolic_bp_threshold_high
  | none => BP_SYSTOLIC_HIGH

/-- The systolic-low threshold as resolved by analyze_blood_pressure
(anomaly_detector.py lines 183, 186-190). -/
def resolve_bp_sys_low (settings : Option UserSettings) : ℤ :=
  match settings with
  | some s => s.systolic_bp_threshold_low
  | none => BP_SYSTOLIC_LOW

/-- The per-dimension result dict of analyze_blood_pressure. -/
structure BpResult where
  is_anomaly : Bool
  severity : String
  message : String
deriving DecidableEq

/-- AnomalyDetector.analyze_blood_pressure (anomaly_detector.py lines
179-207).  bp_dia_high is the module constant BP_DIASTOLIC_HIGH (line 184)
and is never replaced from settings or profile. -/
def analyze_blood_pressure (systolic diastolic : ℤ)
    (settings : Option UserSettings) : BpResult :=
  let bp_sys_high := resolve_bp_sys_high settings
  let bp_sys_low := resolve_bp_sys_low settings
  let bp_dia_high := BP_DIASTOLIC_HIGH
  if systolic > bp_sys_high ∨ diastolic > bp_dia_high then
    { is_anomaly := true
      severity := if systolic > 160 then "high" else "warning"
      message := "血压偏高 (" ++ toString systolic ++ "/" ++ toString diastolic
        ++ "mmHg)，建议休息并持续监测" }
  else if systolic < bp_sys_low then
    { is_anomaly := true
      severity := "warning"
      message := "血压偏低 (" ++ toString systolic ++ "/" ++ toString diastolic
        ++ "mmHg)，注意补充水分" }
  else
    { is_anomaly := false, severity := "normal", message := "血压正常" }

/-- The per-dimension result dict of analyze_location. -/
structure LocResult where
  is_anomaly : Bool
  severity : String
  location_name : String
  message : String
deriving DecidableEq

/-- AnomalyDetector.analyze_location (anomaly_detector.py lines 209-227).
The floating-point geofence membership test is_in_safe_zone and the name
lookup get_location_name are abstracted to their outcomes in_zone and
resolved_name (the trigonometric distance itself is modelled over ℝ below
for the geofence claims). -/
def analyze_location (in_zone : Bool) (resolved_name : String) : LocResult :=
  if in_zone then
    { is_anomaly := false
      severity := "normal"
      location_name := resolved_name
      message := "位置正常" }
  else
    { is_anomaly := true
      severity := "high"
      location_name := "未知区域"
      message := "检测到偏离日常活动区域，请确认老人状况" }

/-- The per-dimension result dict of analyze_activity_pattern. -/
structure ActResult where
  is_anomaly : Bool
  severity : String
  activity : String
  message : String
deriving DecidableEq

/-- AnomalyDetector.analyze_activity_pattern (anomaly_detector.py lines
229-262): night band (hour ≥ 22 or hour < 6), then elif morning band
(7 ≤ hour ≤ 9), then elif midday band (12 ≤ hour ≤ 14), else the untouched
default result. -/
def analyze_activity_pattern (current_hour : ℕ) (heart_rate steps : ℤ) : ActResult :=
  if 22 ≤ current_hour ∨ current_hour < 6 then
    if heart_rate > 85 ∨ steps > 100 then
      { is_anomaly := true, severity := "warning", activity := "夜间异常活动"
        message := "夜间检测到异常活动，可能是失眠或其他情况" }
    else
      { is_anomaly := false, severity := "normal", activity := "正常活动"
        message := "活动模式正常" }
  else if 7 ≤ current_hour ∧ current_hour ≤ 9 then
    if heart_rate > 120 then
      { is_anomaly := true, severity := "warning", activity := "晨练时间"
        message := "晨练期间心率过高，建议适当休息" }
    else
      { is_anomaly := false, severity := "normal", activity := "晨练时间"
        message := "活动模式正常" }
  else if 12 ≤ current_hour ∧ current_hour ≤ 14 then
    if heart_rate > 100 ∧ steps > 500 then
      { is_anomaly := true, severity := "medium", activity := "午休时间"
        message := "午休时段检测到较高活动量" }
    else
      { is_anomaly := false, severity := "normal", activity := "午休时间"
        message := "活动模式正常" }
  else
    { is_anomaly := false, severity := "normal", activity := "正常活动"
      message := "活动模式正常" }

/-- max(...) over the four severity scores (anomaly_detector.py lines
317-322). -/
def max_severity4 (hr : HrResult) (bp : BpResult) (loc : LocResult)
    (act : ActResult) : ℕ :=
  max (max (severity_scores hr.severity) (severity_scores bp.severity))
    (max (severity_scores loc.severity) (severity_scores act.severity))

/-- sum([...]) over the four is_anomaly booleans (anomaly_detector.py lines
325-330). -/
def anomaly_count4 (hr : HrResult) (bp : BpResult) (loc : LocResult)
    (act : ActResult) : ℕ :=
  (if hr.is_anomaly then 1 else 0) + (if bp.is_anomaly then 1 else 0)
    + (if loc.is_anomaly then 1 else 0) + (if act.is_anomaly then 1 else 0)

/-- The overall status and risk label (anomaly_detector.py lines 332-341). -/
def overall_status_risk (max_severity anomaly_count : ℕ) : String × String :=
  if 4 ≤ max_severity ∨ 2 ≤ anomaly_count then ("danger", "高")
  else if 2 ≤ max_severity then ("warning", "中")
  else ("safe", "低")

/-- The synthesized sentence for a danger verdict with no anomalous
dimension (anomaly_detector.py line 358). -/
def HIGH_RISK_MESSAGE : String :=
  "检测到多项生理指标异常，系统判定为高风险状态，请立即确认老人安全！"

/-- The synthesized sentence for a non-safe, non-danger verdict with no
anomalous dimension (anomaly_detector.py line 360). -/
def MILD_CONCERN_MESSAGE : String :=
  "检测到部分指标轻微偏离正常范围，建议保持关注。"

/-- The messages list built by comprehensive_analysis (anomaly_detector.py
lines 344-368): the anomalous dimensions' messages in order, and when none
is anomalous either a synthesized non-safe sentence or an
activity-dependent reassuring sentence. -/
def build_messages (hr : HrResult) (bp : BpResult) (loc : LocResult)
    (act : ActResult) (overall_status : String) : List String :=
  let messages : List String :=
    (if hr.is_anomaly then [hr.message] else []) ++
    (if bp.is_anomaly then [bp.message] else []) ++
    (if loc.is_anomaly then [loc.message] else []) ++
    (if act.is_anomaly then [act.message] else [])
  if messages = [] then
    if overall_status ≠ "safe" then
      if overall_status = "danger" then [HIGH_RISK_MESSAGE] else [MILD_CONCERN_MESSAGE]
    else
      if act.activity = "晨练时间" then ["父亲正在公园进行日常晨练，各项指标正常。"]
      else if act.activity = "午休时间" then ["当前为午休时段，老人心率平稳，处于休息状态。"]
      else ["目前各项生命体征平稳，老人状态安详。"]
  else messages

/-- Python " ".join(messages) (anomaly_detector.py line 378). -/
def join_sp : List String → String
  | [] => ""
  | [m] => m
  | m :: rest => m ++ " " ++ join_sp rest

/-- The aggregate analysis dict returned by comprehensive_analysis
(anomaly_detector.py lines 370-381); baseline_context is returned verbatim
from the profile and carries no decision, so it is omitted. -/
structure Analysis where
  overall_status : String
  overall_risk : String
  anomaly_count : ℕ
  heart_rate_analysis : HrResult
  blood_pressure_analysis : BpResult
  location_analysis : LocResult
  activity_analysis : ActResult
  summary_message : String
  using_ai_baseline : Bool
deriving DecidableEq

/-- AnomalyDetector.comprehensive_analysis (anomaly_detector.py lines
297-381) with the subject's stored profile/settings and the geofence
outcome supplied explicitly. -/
def comprehensive_analysis (record : HealthRecord)
    (profile : Option HealthProfile) (settings : Option UserSettings)
    (in_zone : Bool) (resolved_name : String) : Analysis :=
  let hr_result := analyze_heart_rate record.heart_rate profile settings
  let bp_result := analyze_blood_pressure record.systolic_bp record.diastolic_bp settings
  let loc_result := analyze_location in_zone resolved_name
  let activity_result := analyze_activity_pattern record.hour record.heart_rate record.steps
  let max_severity := max_severity4 hr_result bp_result loc_result activity_result
  let anomaly_count := anomaly_count4 hr_result bp_result loc_result activity_result
  let status_risk := overall_status_risk max_severity anomaly_count
  { overall_status := status_risk.1
    overall_risk := status_risk.2
    anomaly_count := anomaly_count
    heart_rate_analysis := hr_result
    blood_pressure_analysis := bp_result
    location_analysis := loc_result
    activity_analysis := activity_result
    summary_message :=
      join_sp (build_messages hr_result bp_result loc_result activity_result status_risk.1)
    using_ai_baseline := hr_result.using_ai_baseline }

/-- The fields of the records_summary dict (baseline.py
_calculate_records_summary, lines 287-349) that the profile update reads.
The summary statistics themselves use floating-point statistics.mean/stdev
(a square root), which has no exact ℚ form, so the computed summary is
taken as an input of the learning step. -/
structure RecordsSummary where
  hr_mean : ℚ
  hr_std : ℚ
  hr_max : ℚ
  systolic_mean : ℚ
  systolic_std : ℚ
  diastolic_mean : ℚ
  steps_mean : ℤ
  steps_std : ℤ
  days_with_data : ℕ
deriving DecidableEq

/-- The JSON dict returned by the LLM enrichment, as read through
ai_result.get(...) in baseline.py lines 94-118: each field the update may
take from it, none if the key is absent. -/
structure AiResult where
  learned_hr_low : Option ℚ
  learned_hr_high : Option ℚ
  resting_hr : Option ℚ
  exercise_hr_max : Option ℚ
  wake_time : Option String
  sleep_time : Option String
  outdoor_preference : Option String
  health_summary : Option String
  confidence_score : Option ℚ
deriving DecidableEq

/-- llm_service._mock_baseline_analysis (llm_service.py lines 391-408): the
deterministic result substituted whenever the LLM client is absent or the
LLM call fails; every field is supplied, with the heart-rate bounds floored
at 50 and capped at 120. -/
def mock_baseline_analysis (s : RecordsSummary) : AiResult :=
  { learned_hr_low := some (max 50 (s.hr_mean - 2 * s.hr_std))
    learned_hr_high := some (min 120 (s.hr_mean + 2 * s.hr_std))
    resting_hr := some (s.hr_mean - 5)
    exercise_hr_max := some (s.hr_mean + 30)
    wake_time := some "06:30"
    sleep_time := some "21:30"
    outdoor_preference := some "morning"
    health_summary := some "整体健康状况稳定，生活规律"
    confidence_score := some 0.5 }

/-- llm_service.analyze_personal_baseline (llm_service.py lines 336-389):
the parsed LLM response when the call succeeds, _mock_baseline_analysis
when the enrichment is unavailable or fails (modelled as llm = none). -/
def analyze_personal_baseline (llm : Option AiResult) (s : RecordsSummary) : AiResult :=
  match llm with
  | some r => r
  | none => mock_baseline_analysis s

/-- The HealthProfile columns written by trigger_baseline_learning
(baseline.py lines 93-124).  The JSON-serialized list columns
(frequent_locations, risk_factors, personalized_advice), the home-stay
fraction and the timestamps are bookkeeping the claims do not touch and are
omitted. -/
structure LearnedProfile where
  learned_hr_low : ℚ
  learned_hr_high : ℚ
  learned_hr_mean : ℚ
  learned_hr_std : ℚ
  resting_hr : ℚ
  exercise_hr_max : ℚ
  learned_systolic_mean : ℚ
  learned_systolic_std : ℚ
  learned_diastolic_mean : ℚ
  wake_time : String
  sleep_time : String
  daily_steps_mean : ℤ
  daily_steps_std : ℤ
  outdoor_preference : String
  health_summary : String
  confidence_score : ℚ
  data_quality : String
  total_records_analyzed : ℕ
deriving DecidableEq

/-- _assess_data_quality (baseline.py lines 352-361). -/
def assess_data_quality (total_records days_with_data : ℕ) : String :=
  if 500 ≤ total_records ∧ 25 ≤ days_with_data then "excellent"
  else if 200 ≤ total_records ∧ 14 ≤ days_with_data then "good"
  else if 50 ≤ total_records ∧ 7 ≤ days_with_data then "fair"
  else "insufficient"

/-- The profile field assignments of trigger_baseline_learning
(baseline.py lines 93-124): every ai_result.get(key, fallback) becomes
Option.getD, and the statistics come from the records summary. -/
def profile_update (ai : AiResult) (s : RecordsSummary) (total_records : ℕ) :
    LearnedProfile :=
  { learned_hr_low := ai.learned_hr_low.getD (s.hr_mean - 2 * s.hr_std)
    learned_hr_high := ai.learned_hr_high.getD (s.hr_mean + 2 * s.hr_std)
    learned_hr_mean := s.hr_mean
    learned_hr_std := s.hr_std
    resting_hr := ai.resting_hr.getD (s.hr_mean - 5)
    exercise_hr_max := ai.exercise_hr_max.getD s.hr_max
    learned_systolic_mean := s.systolic_mean
    learned_systolic_std := s.systolic_std
    learned_diastolic_mean := s.diastolic_mean
    wake_time := ai.wake_time.getD "06:30"
    sleep_time := ai.sleep_time.getD "21:30"
    daily_steps_mean := s.steps_mean
    daily_steps_std := s.steps_std
    outdoor_preference := ai.outdoor_preference.getD "morning"
    health_summary := ai.health_summary.getD ""
    confidence_score := ai.confidence_score.getD 0.5
    data_quality := assess_data_quality total_records s.days_with_data
    total_records_analyzed := total_records }

/-- The error raised by the learning endpoint: the 400 "insufficient data"
HTTPException of baseline.py lines 73-77, whose detail string reports the
actual record count. -/
inductive LearnError where
  | insufficientData (count : ℕ)
deriving DecidableEq

/-- trigger_baseline_learning (baseline.py lines 44-147) after the access
and user-existence checks: the records returned by the window query, the
outcome of the LLM call and the stored profile row are explicit inputs.
The first component is the endpoint's outcome, the second the profile row
for this subject after the call.  The 10-record gate (lines 73-77) raises
before any statistics or profile mutation, so on error the stored row is
returned unchanged; otherwise the row is fully overwritten with the
computed profile. -/
def trigger_baseline_learning (records : List HealthRecord)
    (summary : RecordsSummary) (llm : Option AiResult)
    (stored : Option LearnedProfile) :
    Except LearnError LearnedProfile × Option LearnedProfile :=
  if records.length < 10 then
    (Except.error (LearnError.insufficientData records.length), stored)
  else
    let p := profile_update (analyze_personal_baseline llm summary) summary records.length
    (Except.ok p, some p)

/-- math.atan2 as used by the haversine formula, over ℝ. -/
noncomputable def atan2 (y x : ℝ) : ℝ :=
  if 0 < x then Real.arctan (y / x)
  else if x < 0 ∧ 0 ≤ y then Real.arctan (y / x) + Real.pi
  else if x < 0 then Real.arctan (y / x) - Real.pi
  else if 0 < y then Real.pi / 2
  else if y < 0 then -(Real.pi / 2)
  else 0

/-- haversine_distance (anomaly_detector.py lines 30-41), over ℝ:
degrees→radians conversion, the haversine formula with Earth radius
6,371,000 m. -/
noncomputable def haversine_distance (lat1 lng1 lat2 lng2 : ℝ) : ℝ :=
  let R : ℝ := 6371000
  let rlat1 := lat1 * Real.pi / 180
  let rlng1 := lng1 * Real.pi / 180
  let rlat2 := lat2 * Real.pi / 180
  let rlng2 := lng2 * Real.pi / 180
  let dlat := rlat2 - rlat1
  let dlng := rlng2 - rlng1
  let a := Real.sin (dlat / 2) ^ 2 + Real.cos rlat1 * Real.cos rlat2 * Real.sin (dlng / 2) ^ 2
  let c := 2 * atan2 (Real.sqrt a) (Real.sqrt (1 - a))
  R * c

/-- One safe zone as the geofence functions consume it (the dicts of
anomaly_detector.py lines 22-27 and 115-122). -/
structure Zone where
  name : String
  lat : ℝ
  lng : ℝ
  radius : ℝ

/-- is_in_safe_zone (anomaly_detector.py lines 54-61): the loop returns
true on the first zone whose distance from the point is at most its
radius. -/
def is_in_safe_zone (lat lng : ℝ) : List Zone → Prop
  | [] => False
  | z :: zones =>
    haversine_distance lat lng z.lat z.lng ≤ z.radius ∨ is_in_safe_zone lat lng zones

/-- The maximum severity rank of an analysis result's four dimensions, as
comprehensive_analysis computes it before aggregation. -/
def analysis_max_severity (A : Analysis) : ℕ :=
  max_severity4 A.heart_rate_analysis A.blood_pressure_analysis
    A.location_analysis A.activity_analysis

section Helpers

lemma length_zero_eq_empty {s : String} (h : s.length = 0) : s = "" := by
  cases s with
  | mk data =>
    simp [String.length] at h
    simp [h]

lemma append_ne_empty_left (a b : String) (h : a ≠ "") : a ++ b ≠ "" := by
  intro hab
  apply h
  have hlen := congrArg String.length hab
  rw [String.length_append, String.length_empty] at hlen
  exact length_zero_eq_empty (by omega)

lemma join_sp_ne_empty (l : List String) (h1 : l ≠ []) (h2 : ∀ m ∈ l, m ≠ "") :
    join_sp l ≠ "" := by
  match l with
  | [] => exact absurd rfl h1
  | [m] => simpa [join_sp] using h2 m (by simp)
  | m :: r :: rest =>
    have hm : m ≠ "" := h2 m (by simp)
    show m ++ " " ++ join_sp (r :: rest) ≠ ""
    exact append_ne_empty_left _ _ (append_ne_empty_left _ _ hm)

lemma analyze_heart_rate_message_ne (hr : ℤ) (p : Option HealthProfile)
    (s : Option UserSettings) : (analyze_heart_rate hr p s).message ≠ "" := by
  simp only [analyze_heart_rate]
  split
  · dsimp only
    split <;> (repeat' apply append_ne_empty_left) <;> decide
  · split
    · dsimp only
      split <;> (repeat' apply append_ne_empty_left) <;> decide
    · dsimp only
      decide

lemma analyze_blood_pressure_message_ne (sys dia : ℤ) (s : Option UserSettings) :
    (analyze_blood_pressure sys dia s).message ≠ "" := by
  simp only [analyze_blood_pressure]
  split
  · dsimp only
    repeat' apply append_ne_empty_left
    decide
  · split
    · dsimp only
      repeat' apply append_ne_empty_left
      decide
    · dsimp only
      decide

lemma analyze_location_message_ne (z : Bool) (n : String) :
    (analyze_location z n).message ≠ "" := by
  simp only [analyze_location]
  split <;> dsimp only <;> decide

lemma analyze_activity_pattern_message_ne (hour : ℕ) (hr steps : ℤ) :
    (analyze_activity_pattern hour hr steps).message ≠ "" := by
  simp only [analyze_activity_pattern]
  split
  · split <;> dsimp only <;> decide
  · split
    · split <;> dsimp only <;> decide
    · split
      · split <;> dsimp only <;> decide
      · dsimp only
        decide

lemma build_messages_ne_nil (hr : HrResult) (bp : BpResult) (loc : LocResult)
    (act : ActResult) (st : String) : build_messages hr bp loc act st ≠ [] := by
  simp only [build_messages]
  split_ifs <;> simp_all

lemma mem_build_messages (hr : HrResult) (bp : BpResult) (loc : LocResult)
    (act : ActResult) (st : String) (m : String)
    (hm : m ∈ build_messages hr bp loc act st) :
    m = hr.message ∨ m = bp.message ∨ m = loc.message ∨ m = act.message ∨
    m = HIGH_RISK_MESSAGE ∨ m = MILD_CONCERN_MESSAGE ∨
    m = "父亲正在公园进行日常晨练，各项指标正常。" ∨
    m = "当前为午休时段，老人心率平稳，处于休息状态。" ∨
    m = "目前各项生命体征平稳，老人状态安详。" := by
  simp only [build_messages] at hm
  split_ifs at hm <;> simp_all <;> tauto

lemma overall_status_risk_spec (M C : ℕ) :
    (4 ≤ M ∨ 2 ≤ C → overall_status_risk M C = ("danger", "高")) ∧
    (M < 4 → C < 2 → 2 ≤ M → overall_status_risk M C = ("warning", "中")) ∧
    (M < 4 → C < 2 → M < 2 → overall_status_risk M C = ("safe", "低")) := by
  unfold overall_status_risk
  refine ⟨?_, ?_, ?_⟩ <;> intros <;> split_ifs <;> first | rfl | omega

lemma ca_hr (r : HealthRecord) (p : Option HealthProfile) (s : Option UserSettings)
    (z : Bool) (n : String) :
    (comprehensive_analysis r p s z n).heart_rate_analysis
      = analyze_heart_rate r.heart_rate p s := rfl

lemma ca_bp (r : HealthRecord) (p : Option HealthProfile) (s : Option UserSettings)
    (z : Bool) (n : String) :
    (comprehensive_analysis r p s z n).blood_pressure_analysis
      = analyze_blood_pressure r.systolic_bp r.diastolic_bp s := rfl

lemma ca_loc (r : HealthRecord) (p : Option HealthProfile) (s : Option UserSettings)
    (z : Bool) (n : String) :
    (comprehensive_analysis r p s z n).location_analysis = analyze_location z n := rfl

lemma ca_act (r : HealthRecord) (p : Option HealthProfile) (s : Option UserSettings)
    (z : Bool) (n : String) :
    (comprehensive_analysis r p s z n).activity_analysis
      = analyze_activity_pattern r.hour r.heart_rate r.steps := rfl

lemma ca_count (r : HealthRecord) (p : Option HealthProfile) (s : Option UserSettings)
    (z : Bool) (n : String) :
    (comprehensive_analysis r p s z n).anomaly_count
      = anomaly_count4 (analyze_heart_rate r.heart_rate p s)
          (analyze_blood_pressure r.systolic_bp r.diastolic_bp s)
          (analyze_location z n)
          (analyze_activity_pattern r.hour r.heart_rate r.steps) := rfl

lemma ca_status (r : HealthRecord) (p : Option HealthProfile) (s : Option UserSettings)
    (z : Bool) (n : String) :
    (comprehensive_analysis r p s z n).overall_status
      = (overall_status_risk
          (max_severity4 (analyze_heart_rate r.heart_rate p s)
            (analyze_blood_pressure r.systolic_bp r.diastolic_bp s)
            (analyze_location z n)
            (analyze_activity_pattern r.hour r.heart_rate r.steps))
          (anomaly_count4 (analyze_heart_rate r.heart_rate p s)
            (analyze_blood_pressure r.systolic_bp r.diastolic_bp s)
            (analyze_location z n)
            (analyze_activity_pattern r.hour r.heart_rate r.steps))).1 := rfl

lemma ca_risk (r : HealthRecord) (p : Option HealthProfile) (s : Option UserSettings)
    (z : Bool) (n : String) :
    (comprehensive_analysis r p s z n).overall_risk
      = (overall_status_risk
          (max_severity4 (analyze_heart_rate r.heart_rate p s)
            (analyze_blood_pressure r.systolic_bp r.diastolic_bp s)
            (analyze_location z n)
            (analyze_activity_pattern r.hour r.heart_rate r.steps))
          (anomaly_count4 (analyze_heart_rate r.heart_rate p s)
            (analyze_blood_pressure r.systolic_bp r.diastolic_bp s)
            (analyze_location z n)
            (analyze_activity_pattern r.hour r.heart_rate r.steps))).2 := rfl

lemma ca_summary (r : HealthRecord) (p : Option HealthProfile) (s : Option UserSettings)
    (z : Bool) (n : String) :
    (comprehensive_analysis r p s z n).summary_message
      = join_sp (build_messages (analyze_heart_rate r.heart_rate p s)
          (analyze_blood_pressure r.systolic_bp r.diastolic_bp s)
          (analyze_location z n)
          (analyze_activity_pattern r.hour r.heart_rate r.steps)
          (overall_status_risk
            (max_severity4 (analyze_heart_rate r.heart_rate p s)
              (analyze_blood_pressure r.systolic_bp r.diastolic_bp s)
              (analyze_location z n)
              (analyze_activity_pattern r.hour r.heart_rate r.steps))
            (anomaly_count4 (analyze_heart_rate r.heart_rate p s)
              (analyze_blood_pressure r.systolic_bp r.diastolic_bp s)
              (analyze_location z n)
              (analyze_activity_pattern r.hour r.heart_rate r.steps))).1) := rfl

lemma haversine_self (lat lng : ℝ) : haversine_distance lat lng lat lng = 0 := by
  simp only [haversine_distance, atan2]
  norm_num [Real.sqrt_eq_zero, Real.arctan_zero]

end Helpers

/-- C1: for every evaluated sample the aggregator's combined message is
non-empty; a non-safe status is never returned together with an empty
combined message; and when no dimension is anomalous yet the status is not
"safe", build_messages synthesizes the high-risk sentence (for "danger") or
the mild-concern sentence (for any other non-safe status) instead of
leaving the message empty. -/
theorem C1_summary_message_consistent (r : HealthRecord)
    (p : Option HealthProfile) (s : Option UserSettings) (z : Bool) (n : String) :
    (comprehensive_analysis r p s z n).summary_message ≠ "" ∧
    ((comprehensive_analysis r p s z n).overall_status ≠ "safe" →
      (comprehensive_analysis r p s z n).summary_message ≠ "") ∧
    (∀ (hr : HrResult) (bp : BpResult) (loc : LocResult) (act : ActResult) (st : String),
      hr.is_anomaly = false → bp.is_anomaly = false → loc.is_anomaly = false →
      act.is_anomaly = false → st ≠ "safe" →
      build_messages hr bp loc act st
        = (if st = "danger" then [HIGH_RISK_MESSAGE] else [MILD_CONCERN_MESSAGE])) := by
  have hne : (comprehensive_analysis r p s z n).summary_message ≠ "" := by
    rw [ca_summary]
    apply join_sp_ne_empty _ (build_messages_ne_nil _ _ _ _ _)
    intro m hm
    rcases mem_build_messages _ _ _ _ _ _ hm with
      h | h | h | h | h | h | h | h | h <;> subst h
    · exact analyze_heart_rate_message_ne _ _ _
    · exact analyze_blood_pressure_message_ne _ _ _
    · exact analyze_location_message_ne _ _
    · exact analyze_activity_pattern_message_ne _ _ _
    · decide
    · decide
    · decide
    · decide
    · decide
  refine ⟨hne, fun _ => hne, ?_⟩
  intro hr bp loc act st h1 h2 h3 h4 hst
  simp [build_messages, h1, h2, h3, h4, hst]

/-- C2: the overall verdict written into the analysis is "danger" with risk
"高" when the maximum severity rank of the four dimension results reaches 4
(the rank of "high") or at least two dimensions are anomalous; otherwise
"warning" with risk "中" when the maximum severity reaches 2 (the rank of
"medium"); otherwise "safe" with risk "低". -/
theorem C2_overall_status_aggregation (r : HealthRecord)
    (p : Option HealthProfile) (s : Option UserSettings) (z : Bool) (n : String) :
    (4 ≤ analysis_max_severity (comprehensive_analysis r p s z n) ∨
        2 ≤ (comprehensive_analysis r p s z n).anomaly_count →
      (comprehensive_analysis r p s z n).overall_status = "danger" ∧
      (comprehensive_analysis r p s z n).overall_risk = "高") ∧
    (analysis_max_severity (comprehensive_analysis r p s z n) < 4 →
      (comprehensive_analysis r p s z n).anomaly_count < 2 →
      2 ≤ analysis_max_severity (comprehensive_analysis r p s z n) →
      (comprehensive_analysis r p s z n).overall_status = "warning" ∧
      (comprehensive_analysis r p s z n).overall_risk = "中") ∧
    (analysis_max_severity (comprehensive_analysis r p s z n) < 4 →
      (comprehensive_analysis r p s z n).anomaly_count < 2 →
      analysis_max_severity (comprehensive_analysis r p s z n) < 2 →
      (comprehensive_analysis r p s z n).overall_status = "safe" ∧
      (comprehensive_analysis r p s z n).overall_risk = "低") ∧
    severity_scores "high" = 4 ∧ severity_scores "medium" = 2 := by
  simp only [analysis_max_severity, ca_hr, ca_bp, ca_loc, ca_act, ca_count,
    ca_status, ca_risk]
  obtain ⟨hd, hw, hs⟩ := overall_status_risk_spec
    (max_severity4 (analyze_heart_rate r.heart_rate p s)
      (analyze_blood_pressure r.systolic_bp r.diastolic_bp s)
      (analyze_location z n)
      (analyze_activity_pattern r.hour r.heart_rate r.steps))
    (anomaly_count4 (analyze_heart_rate r.heart_rate p s)
      (analyze_blood_pressure r.systolic_bp r.diastolic_bp s)
      (analyze_location z n)
      (analyze_activity_pattern r.hour r.heart_rate r.steps))
  refine ⟨fun h => ?_, fun h1 h2 h3 => ?_, fun h1 h2 h3 => ?_, rfl, rfl⟩
  · rw [hd h]
    exact ⟨rfl, rfl⟩
  · rw [hw h1 h2 h3]
    exact ⟨rfl, rfl⟩
  · rw [hs h1 h2 h3]
    exact ⟨rfl, rfl⟩

/-- C3 (amended): for every heart-rate value between the resolved low and
high thresholds inclusive, the heart-rate analyzer reports
is_anomaly = false; in particular a value exactly equal to either boundary
is NOT anomalous — anomaly requires strictly exceeding the high threshold
or strictly undercutting the low one. -/
theorem C3_amended_in_range_not_anomalous (hr : ℤ) (p : Option HealthProfile)
    (s : Option UserSettings)
    (hlow : (resolve_hr_thresholds p s).2.1 ≤ (hr : ℚ))
    (hhigh : (hr : ℚ) ≤ (resolve_hr_thresholds p s).1) :
    (analyze_heart_rate hr p s).is_anomaly = false := by
  simp only [analyze_heart_rate]
  rw [if_neg (not_lt.2 hhigh), if_neg (not_lt.2 hlow)]

/-- C3 witness: with no profile and no settings the resolved range is
[50, 100] and a heart rate of 72 is inside it and not anomalous. -/
theorem C3_amended_witness :
    (resolve_hr_thresholds none none).2.1 ≤ ((72 : ℤ) : ℚ) ∧
    ((72 : ℤ) : ℚ) ≤ (resolve_hr_thresholds none none).1 ∧
    (analyze_heart_rate 72 none none).is_anomaly = false :=
  ⟨by norm_num [resolve_hr_thresholds, HEART_RATE_LOW],
   by norm_num [resolve_hr_thresholds, HEART_RATE_HIGH],
   C3_amended_in_range_not_anomalous 72 none none
     (by norm_num [resolve_hr_thresholds, HEART_RATE_LOW])
     (by norm_num [resolve_hr_thresholds, HEART_RATE_HIGH])⟩

/-- C3 counterexample: the claim says a heart rate exactly equal to the high
threshold is anomalous, but with the default thresholds (high = 100) the
analyzer reports is_anomaly = false for a heart rate of exactly 100, since
the code only flags heart_rate > hr_high. -/
theorem C3_counterexample :
    (resolve_hr_thresholds none none).1 = 100 ∧
    (analyze_heart_rate 100 none none).is_anomaly = false := by
  constructor
  · rfl
  · norm_num [analyze_heart_rate, resolve_hr_thresholds, HEART_RATE_HIGH, HEART_RATE_LOW]

/-- C4: heart-rate threshold resolution follows the fallback chain — a
stored profile with confidence_score > 0.3 supplies the learned low/high
bounds and tags the result as the learned personal baseline; otherwise
stored manual settings supply their heart-rate thresholds; otherwise the
hard defaults high = 100 bpm and low = 50 bpm apply — and
analyze_heart_rate operates on exactly the resolved range. -/
theorem C4_threshold_fallback_chain (p : Option HealthProfile)
    (s : Option UserSettings) :
    (∀ prof, p = some prof → 0.3 < prof.confidence_score →
      resolve_hr_thresholds p s = (prof.learned_hr_high, prof.learned_hr_low, true)) ∧
    (∀ st, s = some st → (∀ prof, p = some prof → prof.confidence_score ≤ 0.3) →
      resolve_hr_thresholds p s
        = ((st.heart_rate_threshold_high : ℚ), (st.heart_rate_threshold_low : ℚ), false)) ∧
    ((∀ prof, p = some prof → prof.confidence_score ≤ 0.3) → s = none →
      resolve_hr_thresholds p s = (HEART_RATE_HIGH, HEART_RATE_LOW, false) ∧
      HEART_RATE_HIGH = 100 ∧ HEART_RATE_LOW = 50) ∧
    (∀ hr, (analyze_heart_rate hr p s).baseline_range
        = ((resolve_hr_thresholds p s).2.1, (resolve_hr_thresholds p s).1) ∧
      (analyze_heart_rate hr p s).using_ai_baseline = (resolve_hr_thresholds p s).2.2) := by
  refine ⟨?_, ?_, ?_, ?_⟩
  · rintro prof rfl hc
    simp [resolve_hr_thresholds, hc]
  · rintro st rfl hlow
    cases p with
    | none => simp [resolve_hr_thresholds]
    | some prof => simp [resolve_hr_thresholds, not_lt.2 (hlow prof rfl)]
  · intro hlow hnone
    subst hnone
    refine ⟨?_, rfl, rfl⟩
    cases p with
    | none => simp [resolve_hr_thresholds]
    | some prof => simp [resolve_hr_thresholds, not_lt.2 (hlow prof rfl)]
  · intro hr
    constructor <;> (simp only [analyze_heart_rate]; split_ifs <;> rfl)

/-- C5: the activity analyzer implements exactly the three hour bands —
night (hour ≥ 22 or hour < 6): anomalous iff heart_rate > 85 or
steps > 100, severity "warning"; morning (7 ≤ hour ≤ 9): anomalous iff
heart_rate > 120, severity "warning"; midday rest (12 ≤ hour ≤ 14):
anomalous iff heart_rate > 100 and steps > 500, severity "medium"; and for
every other hour of the day (6, 10-11, 15-21) it reports
is_anomaly = false. -/
theorem C5_activity_bands (hour : ℕ) (hr steps : ℤ) :
    ((22 ≤ hour ∨ hour < 6) →
      ((analyze_activity_pattern hour hr steps).is_anomaly = true ↔
        (hr > 85 ∨ steps > 100)) ∧
      ((analyze_activity_pattern hour hr steps).is_anomaly = true →
        (analyze_activity_pattern hour hr steps).severity = "warning")) ∧
    ((7 ≤ hour ∧ hour ≤ 9) →
      ((analyze_activity_pattern hour hr steps).is_anomaly = true ↔ hr > 120) ∧
      ((analyze_activity_pattern hour hr steps).is_anomaly = true →
        (analyze_activity_pattern hour hr steps).severity = "warning")) ∧
    ((12 ≤ hour ∧ hour ≤ 14) →
      ((analyze_activity_pattern hour hr steps).is_anomaly = true ↔
        (hr > 100 ∧ steps > 500)) ∧
      ((analyze_activity_pattern hour hr steps).is_anomaly = true →
        (analyze_activity_pattern hour hr steps).severity = "medium")) ∧
    ((hour = 6 ∨ (10 ≤ hour ∧ hour ≤ 11) ∨ (15 ≤ hour ∧ hour ≤ 21)) →
      (analyze_activity_pattern hour hr steps).is_anomaly = false) := by
  refine ⟨?_, ?_, ?_, ?_⟩ <;> intro hband <;> simp only [analyze_activity_pattern]
  · rw [if_pos hband]
    split_ifs with hc <;> simp [hc]
  · rw [if_neg (by omega), if_pos hband]
    split_ifs with hc <;> simp [hc]
  · rw [if_neg (by omega), if_neg (by omega), if_pos hband]
    split_ifs with hc <;> simp_all
  · rw [if_neg (by omega), if_neg (by omega), if_neg (by omega)]

/-- C6: when the LLM enrichment is unavailable (so no enrichment field is
supplied from outside), the learned profile is derived deterministically
from the window statistics through the fallback chain: learned_hr_low =
hr_mean − 2·hr_std floored at 50, learned_hr_high = hr_mean + 2·hr_std
capped at 120, resting_hr = hr_mean − 5; the confidence score defaults to
0.5 — also whenever the enrichment result merely omits that key. -/
theorem C6_baseline_fallback_derivation (s : RecordsSummary) (total : ℕ) :
    (profile_update (analyze_personal_baseline none s) s total).learned_hr_low
      = max 50 (s.hr_mean - 2 * s.hr_std) ∧
    (profile_update (analyze_personal_baseline none s) s total).learned_hr_high
      = min 120 (s.hr_mean + 2 * s.hr_std) ∧
    (profile_update (analyze_personal_baseline none s) s total).resting_hr
      = s.hr_mean - 5 ∧
    (profile_update (analyze_personal_baseline none s) s total).confidence_score
      = 0.5 ∧
    (∀ ai : AiResult, ai.confidence_score = none →
      (profile_update ai s total).confidence_score = 0.5) := by
  refine ⟨rfl, rfl, rfl, rfl, ?_⟩
  intro ai h
  simp [profile_update, h]

/-- C7: baseline learning with fewer than 10 records in the window fails
with an insufficient-data error carrying the actual record count and the
stored profile row is unchanged; with exactly 10 records it succeeds and
writes the computed profile. -/
theorem C7_insufficient_data_gate (records : List HealthRecord)
    (summary : RecordsSummary) (llm : Option AiResult)
    (stored : Option LearnedProfile) :
    (records.length < 10 →
      trigger_baseline_learning records summary llm stored
        = (Except.error (LearnError.insufficientData records.length), stored)) ∧
    (records.length = 10 →
      trigger_baseline_learning records summary llm stored
        = (Except.ok (profile_update (analyze_personal_baseline llm summary)
              summary records.length),
           some (profile_update (analyze_personal_baseline llm summary)
              summary records.length))) := by
  constructor
  · intro h
    simp [trigger_baseline_learning, h]
  · intro h
    simp [trigger_baseline_learning, h]

/-- C8: the data-quality grade is the step function of (total samples,
distinct days with data): at least 500 samples and 25 days gives
"excellent"; otherwise at least 200 and 14 gives "good"; otherwise at
least 50 and 7 gives "fair"; otherwise "insufficient". -/
theorem C8_data_quality_grades (t d : ℕ) :
    (assess_data_quality t d = "excellent" ↔ 500 ≤ t ∧ 25 ≤ d) ∧
    (assess_data_quality t d = "good" ↔
      ¬(500 ≤ t ∧ 25 ≤ d) ∧ 200 ≤ t ∧ 14 ≤ d) ∧
    (assess_data_quality t d = "fair" ↔
      ¬(500 ≤ t ∧ 25 ≤ d) ∧ ¬(200 ≤ t ∧ 14 ≤ d) ∧ 50 ≤ t ∧ 7 ≤ d) ∧
    (assess_data_quality t d = "insufficient" ↔
      ¬(500 ≤ t ∧ 25 ≤ d) ∧ ¬(200 ≤ t ∧ 14 ≤ d) ∧ ¬(50 ≤ t ∧ 7 ≤ d)) := by
  unfold assess_data_quality
  refine ⟨?_, ?_, ?_, ?_⟩ <;> split_ifs <;> simp_all

/-- C9: geofence membership is reflexive — the haversine distance from a
point to itself is 0, so for every zone with positive radius contained in
the zone list, the point at that zone's center is inside a safe zone. -/
theorem C9_geofence_reflexive (zones : List Zone) (z : Zone)
    (hz : z ∈ zones) (hr : 0 < z.radius) :
    haversine_distance z.lat z.lng z.lat z.lng = 0 ∧
    is_in_safe_zone z.lat z.lng zones := by
  refine ⟨haversine_self z.lat z.lng, ?_⟩
  induction zones with
  | nil => exact absurd hz (List.not_mem_nil z)
  | cons a rest ih =>
    rcases List.mem_cons.1 hz with rfl | hmem
    · exact Or.inl (by rw [haversine_self]; exact le_of_lt hr)
    · exact Or.inr (ih hmem)

/-- C9 witness: the point at the center of the default home zone (radius
200 m) is inside the singleton zone list. -/
theorem C9_geofence_reflexive_witness :
    (⟨"家", 30.2741, 120.1551, 200⟩ : Zone) ∈ [(⟨"家", 30.2741, 120.1551, 200⟩ : Zone)] ∧
    (0 : ℝ) < (⟨"家", 30.2741, 120.1551, 200⟩ : Zone).radius ∧
    is_in_safe_zone (⟨"家", 30.2741, 120.1551, 200⟩ : Zone).lat
      (⟨"家", 30.2741, 120.1551, 200⟩ : Zone).lng
      [(⟨"家", 30.2741, 120.1551, 200⟩ : Zone)] :=
  ⟨by simp, by norm_num,
   (C9_geofence_reflexive [(⟨"家", 30.2741, 120.1551, 200⟩ : Zone)]
     (⟨"家", 30.2741, 120.1551, 200⟩ : Zone) (by simp) (by norm_num)).2⟩

/-- C10: the blood-pressure analyzer judges the diastolic reading against
the hard-coded default 90 mmHg for every input and every settings row —
user settings carry no diastolic threshold and only the systolic
thresholds are substituted from them. -/
theorem C10_diastolic_fixed_default (systolic diastolic : ℤ)
    (s : Option UserSettings) :
    ((analyze_blood_pressure systolic diastolic s).is_anomaly = true ↔
      (systolic > resolve_bp_sys_high s ∨ diastolic > 90 ∨
        systolic < resolve_bp_sys_low s)) ∧
    BP_DIASTOLIC_HIGH = 90 := by
  refine ⟨?_, rfl⟩
  simp only [analyze_blood_pressure, BP_DIASTOLIC_HIGH]
  split_ifs with h1 h2 <;> simp <;> omega

end ZhiShouHu
